import Mathlib

/-!
Verification development for the Nexus paper-trading engine.

Shallow embedding of the core of the repository:
`nexus_trading_engine_complete.js` (signal scanning, position state machine,
outcome recording, performance aggregation), `nexus_exit_engine.js`
(the per-trade exit check of `ExitEngine.checkTradeExits`) and
`nexus_api_server.js` (the manual close route `POST /api/trades/close`).

Conventions of the embedding:
- JavaScript numbers are modelled as exact rationals (`ℚ`).
- A JavaScript field that may be `undefined` is modelled as an `Option`,
  except Boolean flags such as `recorded`/`reachedTarget1`, where
  `undefined` and `false` behave identically in every read of the source
  (`x === true` / truthiness tests) and are both modelled as `false`.
- `Math.random()` draws are passed in explicitly as `ℚ` parameters.
- Wall-clock reads (`Date.now()`, session tags) are passed in explicitly.
- JavaScript `a || b` on numbers is modelled as `if a ≠ 0 then a else b`,
  and on strings as `if a ≠ "" then a else b`.
- `Infinity` (the engine's profit-factor sentinel) is modelled as
  `⊤ : WithTop ℚ`.
-/

namespace Nexus

/-- Direction of a position (`'BULLISH' | 'BEARISH'` in the source). -/
inductive Direction where
  | BULLISH
  | BEARISH
deriving DecidableEq

/-- One entry of `priceHistory[asset]`: `{ price, change, time }`
pushed by `updatePrice`. -/
structure PriceSample where
  price : ℚ
  change : ℚ
  time : ℕ
deriving DecidableEq

/-- The `entry` band of a setup: `{ min, max }` from `calculateSetupLevels`. -/
structure EntryBand where
  min : ℚ
  max : ℚ
deriving DecidableEq

/-- A position setup object, as built by `generateAISetup` and mutated by
`updateTradeStatus` / `recordTradeOutcome`. -/
structure Setup where
  direction : Direction
  entry : EntryBand
  stop : ℚ
  originalStop : Option ℚ
  t1 : ℚ
  t2 : ℚ
  entryPrice : ℚ
  confidence : ℤ
  timestamp : ℕ
  status : String
  reachedTarget1 : Bool
  reachedTarget2 : Bool
  recorded : Bool
  marketCondition : String
  volatilityLevel : String
  sessionActive : String
deriving DecidableEq

/-- A trade record pushed onto `tradeDatabase.trades`.  Engine-created
records have `closedBy = none`, `exitPrice = none`, `exitTime = none`;
the manual close route fills them in. -/
structure Trade where
  asset : String
  setup : Setup
  outcome : Option String
  profit : ℚ
  timestamp : ℕ
  marketCondition : String
  volatilityLevel : String
  sessionActive : String
  closedBy : Option String
  exitPrice : Option ℚ
  exitTime : Option ℕ
deriving DecidableEq

/-- The `performance` object of `tradeDatabase`. -/
structure Performance where
  totalTrades : ℕ
  winners : ℕ
  losers : ℕ
  breakevenTrades : ℕ
  totalProfit : ℚ
  winRate : ℚ
  profitFactor : WithTop ℚ
  avgWin : ℚ
  avgLoss : ℚ
  breakevenRate : ℚ
deriving DecidableEq

/-- Initial `tradeDatabase.performance` (all zero). -/
def initialPerformance : Performance :=
  { totalTrades := 0, winners := 0, losers := 0, breakevenTrades := 0,
    totalProfit := 0, winRate := 0, profitFactor := 0, avgWin := 0,
    avgLoss := 0, breakevenRate := 0 }

/-- The trades list together with the performance aggregate
(the persistent part of `tradeDatabase` that `recordTradeOutcome` touches). -/
structure DB where
  trades : List Trade
  performance : Performance
deriving DecidableEq

/-- One entry of `RISK_CONFIGS`. -/
structure RiskConfig where
  stopPct : ℚ
  target1 : ℚ
  target2 : ℚ
  minConfidence : ℤ
deriving DecidableEq

/-- Source `RISK_CONFIGS.conservative`. -/
def conservative : RiskConfig :=
  { stopPct := 1/200, target1 := 3/2, target2 := 5/2, minConfidence := 8 }

/-- Source `RISK_CONFIGS.aggressive`. -/
def aggressive : RiskConfig :=
  { stopPct := 3/1000, target1 := 1, target2 := 2, minConfidence := 6 }

/-- Source `CONFIG.RISK_PER_TRADE`. -/
def riskPerTrade : ℚ := 10

/-! ## Trade generation (`calculateSetupLevels`, `generateAISetup`) -/

/-- Source `calculateSetupLevels(asset, price, direction, config)`:
returns the entry band and the `(stop, t1, t2)` levels. -/
def calculateSetupLevels (price : ℚ) (direction : Direction) (config : RiskConfig) :
    EntryBand × ℚ × ℚ × ℚ :=
  match direction with
  | .BULLISH =>
      (⟨price * (9995/10000), price * (10005/10000)⟩,
       price * (1 - config.stopPct),
       price * (1 + config.stopPct * config.target1),
       price * (1 + config.stopPct * config.target2))
  | .BEARISH =>
      (⟨price * (10005/10000), price * (9995/10000)⟩,
       price * (1 + config.stopPct),
       price * (1 - config.stopPct * config.target1),
       price * (1 - config.stopPct * config.target2))

/-- Source `generateAISetup` without SMC data (`smcData = null` path): builds the
setup object stored into the active slot.  `mc`, `vl`, `sess` are the
global `marketCondition` / `volatilityLevel` / `getCurrentSession()` values
at open time; `now` is `Date.now()`. -/
def generateAISetup (price : ℚ) (confidence : ℤ) (momentum : ℚ)
    (config : RiskConfig) (mc vl sess : String) (now : ℕ) : Setup :=
  let direction := if momentum > 0 then Direction.BULLISH else Direction.BEARISH
  let levels := calculateSetupLevels price direction config
  { direction := direction
    entry := levels.1
    stop := levels.2.1
    originalStop := none
    t1 := levels.2.2.1
    t2 := levels.2.2.2
    entryPrice := price
    confidence := confidence
    timestamp := now
    status := "ACTIVE"
    reachedTarget1 := false
    reachedTarget2 := false
    recorded := false
    marketCondition := mc
    volatilityLevel := vl
    sessionActive := sess }

/-! ## Signal scanning (`calculateMomentum`, `scanForSignals`) -/

/-- Last `n` elements of a list (JavaScript `slice(-n)` for `n > 0`). -/
def lastN (n : ℕ) (l : List α) : List α := l.drop (l.length - n)

/-- Source `calculateMomentum(asset)`.  Here `rand` is the `Math.random()` draw used by
the fewer-than-3-samples fallback. -/
def calculateMomentum (hist : List PriceSample) (rand : ℚ) : ℚ :=
  if hist.length < 3 then
    (if rand > 1/2 then 1 else -1)
  else
    let recent := lastN 3 hist
    let avgChange := (recent.foldl (fun s p => s + p.change) 0) / (recent.length : ℚ)
    max (-2) (min 2 (avgChange / 2))

/-- The confidence computation inside `scanForSignals`: base
`8 + Math.floor(rand * 8)` plus the regime/volatility bonuses. -/
def scanConfidence (rand : ℚ) (mc vl : String) (momentum : ℚ) : ℤ :=
  let c : ℤ := 8 + Int.floor (rand * 8)
  let c := if mc == "TRENDING_UP" && decide (momentum > 0) then c + 2 else c
  let c := if mc == "TRENDING_DOWN" && decide (momentum < 0) then c + 2 else c
  let c := if vl == "HIGH" || vl == "EXTREME" then c + 3 else c
  c

/-- Source `scanForSignals(asset, currentPrice)`: returns the setup admitted into
the active slot, or `none` when the cooldown, the active-slot check or the
confidence gate rejects.  `randMomentum` and `randConf` are the two
`Math.random()` draws; `now`/`lastSignal` are clock readings in ms. -/
def scanForSignals (now lastSignal : ℕ) (active : Option Setup)
    (hist : List PriceSample) (randMomentum randConf : ℚ)
    (mc vl sess : String) (config : RiskConfig) (price : ℚ) : Option Setup :=
  if now - lastSignal < 60000 then none
  else if active.isSome then none
  else
    let momentum := calculateMomentum hist randMomentum
    let confidence := scanConfidence randConf mc vl momentum
    if config.minConfidence ≤ confidence then
      some (generateAISetup price confidence momentum config mc vl sess now)
    else none

/-! ## Market analysis (`detectMarketCondition`) -/

/-- The global pair `(marketCondition, volatilityLevel)`. -/
structure Regime where
  condition : String
  volatility : String
deriving DecidableEq

/-- The classification computed inside `detectMarketCondition` for one
asset whose window holds at least 5 samples: trend from the last-5 price
difference against `0.02 × currentPrice`, volatility from the mean of
`|change|` over the last 5 samples. -/
def classifyWindow (hist : List PriceSample) (currentPrice : ℚ) : Regime :=
  let recent := lastN 5 hist
  let trend := ((recent.getLast?).map (·.price)).getD 0 -
    ((recent.head?).map (·.price)).getD 0
  let avgChange := (recent.foldl (fun s p => s + |p.change|) 0) / (recent.length : ℚ)
  { condition :=
      if trend > currentPrice * (2/100) then "TRENDING_UP"
      else if trend < -(currentPrice * (2/100)) then "TRENDING_DOWN"
      else "RANGING"
    volatility :=
      if avgChange > 2 then "EXTREME"
      else if avgChange > 3/2 then "HIGH"
      else if avgChange > 4/5 then "NORMAL"
      else "LOW" }

/-- One iteration of the `['btc','eth'].forEach` loop in
`detectMarketCondition`: overwrite the regime when the asset has at least
5 samples, otherwise leave it unchanged. -/
def classifyStep (hist : List PriceSample) (currentPrice : ℚ) (prev : Regime) : Regime :=
  if 5 ≤ hist.length then classifyWindow hist currentPrice else prev

/-- Source `detectMarketCondition()`: the btc pass runs first, then the eth pass
over the same global variables. -/
def detectMarketCondition (btcHist ethHist : List PriceSample)
    (btcPrice ethPrice : ℚ) (prev : Regime) : Regime :=
  classifyStep ethHist ethPrice (classifyStep btcHist btcPrice prev)

/-! ## Outcome recording (`recordTradeOutcome` of the trading engine) -/

/-- FIX #1 of `recordTradeOutcome`: the call records only when the outcome
is present and not `ACTIVE`/`OPEN` (an empty string is falsy in
JavaScript, hence also not recordable). -/
def isRecordable (outcome : Option String) : Bool :=
  match outcome with
  | none => false
  | some s => !(s == "" || s == "ACTIVE" || s == "OPEN")

/-- The entry price a stored trade contributes to the duplicate check:
`t.setup?.entryPrice || t.entryPrice || 0`.  Engine records carry their
entry price only inside `setup` and have no top-level `entryPrice`,
so a zero `setup.entryPrice` falls through to `0`. -/
def tradeEntryPrice (t : Trade) : ℚ :=
  if t.setup.entryPrice ≠ 0 then t.setup.entryPrice else 0

/-- The setup side of the duplicate check: `setup.entryPrice || 0`. -/
def setupEntryOr0 (s : Setup) : ℚ :=
  if s.entryPrice ≠ 0 then s.entryPrice else 0

/-- FIX #3 of `recordTradeOutcome`: a stored trade with the same asset, an
entry price within 0.5 absolute units and the same (truthy) outcome makes
the call a duplicate. -/
def isDuplicate (trades : List Trade) (asset : String) (setup : Setup)
    (outcome : String) : Bool :=
  trades.any fun t =>
    t.asset == asset &&
    decide (|tradeEntryPrice t - setupEntryOr0 setup| < 1/2) &&
    (match t.outcome with
     | some u => !(u == "") && u == outcome
     | none => false)

/-- The WIN branch of the P&L computation: position value implied by the
stop distance, scaled by the target-2 distance; `RISK_PER_TRADE * 3` when
either distance is degenerate.  (Over `ℚ` the non-finite sanitization of
the source is unreachable.) -/
def winRealizedPnL (setup : Setup) : ℚ :=
  let stopDistancePercent := |(setup.stop - setup.entryPrice) / setup.entryPrice|
  let targetDistancePercent := |(setup.t2 - setup.entryPrice) / setup.entryPrice|
  if stopDistancePercent > 0 ∧ targetDistancePercent > 0 then
    (riskPerTrade / stopDistancePercent) * targetDistancePercent
  else riskPerTrade * 3

/-- The realized P&L stored on the trade record:
WIN formula, `-RISK_PER_TRADE` for LOSS, `0` otherwise. -/
def realizedPnLFor (setup : Setup) (outcome : String) : ℚ :=
  if outcome == "WIN" then winRealizedPnL setup
  else if outcome == "LOSS" then -riskPerTrade
  else 0

/-- Source reduction `trades.filter(t => t.outcome === 'WIN').reduce((sum, t) => sum + Math.abs(t.profit || 0), 0)`. -/
def totalWinAmount (trades : List Trade) : ℚ :=
  (trades.filter (fun t => t.outcome == some "WIN")).foldl (fun s t => s + |t.profit|) 0

/-- Same reduction over the LOSS subset. -/
def totalLossAmount (trades : List Trade) : ℚ :=
  (trades.filter (fun t => t.outcome == some "LOSS")).foldl (fun s t => s + |t.profit|) 0

/-- Source `recordTradeOutcome(asset, setup, outcome, profit)` of the trading
engine.  Returns the updated database together with the setup object
(whose `recorded` flag the source mutates in place).  The `profitArg`
parameter mirrors the source's unused `profit` argument; `mc`/`vl`/`sess`
are the globals read when the setup lacks a snapshot; `now` is
`Date.now()`.  The source updates `totalTrades`, the outcome counters,
`avgWin`/`avgLoss`, `winRate` and `profitFactor`, and touches neither
`totalProfit` nor `breakevenRate`. -/
def recordTradeOutcome (db : DB) (asset : String) (setup : Setup)
    (outcome : Option String) (profitArg : ℚ) (mc vl sess : String) (now : ℕ) :
    DB × Setup :=
  if isRecordable outcome then
    if setup.recorded then (db, setup)
    else
      let oc := outcome.getD ""
      if isDuplicate db.trades asset setup oc then (db, setup)
      else
        let setup' := { setup with recorded := true }
        let pnl := realizedPnLFor setup' oc
        let trade : Trade :=
          { asset := asset
            setup := setup'
            outcome := some oc
            profit := pnl
            timestamp := if setup.timestamp ≠ 0 then setup.timestamp else now
            marketCondition := if setup.marketCondition ≠ "" then setup.marketCondition else mc
            volatilityLevel := if setup.volatilityLevel ≠ "" then setup.volatilityLevel else vl
            sessionActive := if setup.sessionActive ≠ "" then setup.sessionActive else sess
            closedBy := none
            exitPrice := none
            exitTime := none }
        let trades' := db.trades ++ [trade]
        let p := db.performance
        let p := { p with totalTrades := trades'.length }
        let p :=
          if oc == "WIN" then
            let winners' := p.winners + 1
            { p with winners := winners',
                     avgWin := if 0 < winners' then totalWinAmount trades' / (winners' : ℚ) else 0 }
          else if oc == "LOSS" then
            let losers' := p.losers + 1
            { p with losers := losers',
                     avgLoss := if 0 < losers' then totalLossAmount trades' / (losers' : ℚ) else 0 }
          else if oc == "BREAKEVEN" then
            { p with breakevenTrades := p.breakevenTrades + 1 }
          else p
        let p := { p with winRate :=
          if 0 < p.totalTrades then ((p.winners : ℚ) / (p.totalTrades : ℚ)) * 100 else 0 }
        let tw := totalWinAmount trades'
        let tl := totalLossAmount trades'
        let p := { p with profitFactor :=
          if 0 < tl then ((tw / tl : ℚ) : WithTop ℚ) else if 0 < tw then ⊤ else 0 }
        ({ trades := trades', performance := p }, setup')
  else (db, setup)

/-! ## Position state machine (`updateTradeStatus` of the trading engine) -/

/-- Profit-side level crossing (`>=` for BULLISH, `<=` for BEARISH). -/
def hitUp (dir : Direction) (price lvl : ℚ) : Bool :=
  match dir with
  | .BULLISH => decide (lvl ≤ price)
  | .BEARISH => decide (price ≤ lvl)

/-- Stop-side level crossing (`<=` for BULLISH, `>=` for BEARISH). -/
def hitDown (dir : Direction) (price lvl : ℚ) : Bool :=
  match dir with
  | .BULLISH => decide (price ≤ lvl)
  | .BEARISH => decide (lvl ≤ price)

/-- Source read `(trade.entry?.min + trade.entry?.max) / 2 || trade.entryPrice`. -/
def entryAvgOf (trade : Setup) : ℚ :=
  let a := (trade.entry.min + trade.entry.max) / 2
  if a ≠ 0 then a else trade.entryPrice

/-- Source read `trade.originalStop || trade.stop` (the stop-loss level before T1). -/
def effectiveStop (trade : Setup) : ℚ :=
  match trade.originalStop with
  | some s => if s ≠ 0 then s else trade.stop
  | none => trade.stop

/-- Result of one exit-check pass on one active position: the surviving
(possibly mutated) active setup, and the `(outcome, profit)` pair handed
to the outcome recorder when a closing rule fired. -/
structure TickOutcome where
  active : Option Setup
  closeEvent : Option (String × ℚ)
deriving DecidableEq

/-- Source `updateTradeStatus(asset)` of the trading engine, for a present active
trade and a given current price.  The four rules are evaluated in source
order, each ending the call (`return`). -/
def updateTradeStatus (trade : Setup) (currentPrice : ℚ) : TickOutcome :=
  if currentPrice ≤ 0 then ⟨some trade, none⟩
  else
    let entryAvg := entryAvgOf trade
    if !trade.reachedTarget1 && hitUp trade.direction currentPrice trade.t1 then
      ⟨some { trade with reachedTarget1 := true, originalStop := some trade.stop,
                         stop := entryAvg }, none⟩
    else if trade.reachedTarget1 && !trade.reachedTarget2 &&
        hitUp trade.direction currentPrice trade.t2 then
      ⟨none, some ("WIN", |trade.t2 - entryAvg|)⟩
    else if trade.reachedTarget1 && !trade.reachedTarget2 &&
        hitDown trade.direction currentPrice trade.stop then
      ⟨none, some ("BREAKEVEN", 0)⟩
    else if !trade.reachedTarget1 &&
        hitDown trade.direction currentPrice (effectiveStop trade) then
      ⟨none, some ("LOSS", |currentPrice - entryAvg|)⟩
    else ⟨some trade, none⟩

/-- The per-trade body of `ExitEngine.checkTradeExits` from
`nexus_exit_engine.js` (same rule order; its `entryAvg` has no
`|| entryPrice` fallback, and trades with a falsy `entryPrice` are
skipped). -/
def checkTradeExitStep (setup : Setup) (currentPrice : ℚ) : TickOutcome :=
  if setup.entryPrice = 0 then ⟨some setup, none⟩
  else if currentPrice ≤ 0 then ⟨some setup, none⟩
  else
    let entryAvg := (setup.entry.min + setup.entry.max) / 2
    if !setup.reachedTarget1 && hitUp setup.direction currentPrice setup.t1 then
      ⟨some { setup with reachedTarget1 := true, originalStop := some setup.stop,
                         stop := entryAvg }, none⟩
    else if setup.reachedTarget1 && !setup.reachedTarget2 &&
        hitUp setup.direction currentPrice setup.t2 then
      ⟨none, some ("WIN", |setup.t2 - entryAvg|)⟩
    else if setup.reachedTarget1 && !setup.reachedTarget2 &&
        hitDown setup.direction currentPrice setup.stop then
      ⟨none, some ("BREAKEVEN", 0)⟩
    else if !setup.reachedTarget1 &&
        hitDown setup.direction currentPrice (effectiveStop setup) then
      ⟨none, some ("LOSS", |currentPrice - entryAvg|)⟩
    else ⟨some setup, none⟩

/-- Per-asset engine state: the active slot plus the trade database. -/
structure EngineState where
  active : Option Setup
  db : DB
deriving DecidableEq

/-- One `updateTradeStatus` pass of the trading engine on one asset,
including the hand-off to `recordTradeOutcome` and the clearing of the
active slot when a closing rule fired. -/
def engineTick (asset : String) (mc vl sess : String) (now : ℕ)
    (st : EngineState) (price : ℚ) : EngineState :=
  match st.active with
  | none => st
  | some trade =>
    let r := updateTradeStatus trade price
    match r.closeEvent with
    | none => { st with active := r.active }
    | some (oc, profit) =>
      let rec' := recordTradeOutcome st.db asset trade (some oc) profit mc vl sess now
      { active := none, db := rec'.1 }

/-! ## Manual close route (`POST /api/trades/close` of `nexus_api_server.js`) -/

/-- Shape of one active-trade slot in the persisted blob: absent, a bare
setup object (the format the trading engine writes), or an object carrying
a `setup` field (the format the exit engine's records use). -/
inductive ActiveSlot where
  | empty
  | bare (s : Setup)
  | wrapped (s : Setup)
deriving DecidableEq

/-- The persisted data blob of the API server
(`{trades, activeTrades, performance}`). -/
structure BlobState where
  trades : List Trade
  activeBtc : ActiveSlot
  activeEth : ActiveSlot
  performance : Performance
deriving DecidableEq

/-- Source read `data.activeTrades?.[asset]` for the two known assets. -/
def getSlot (d : BlobState) (asset : String) : ActiveSlot :=
  if asset == "btc" then d.activeBtc
  else if asset == "eth" then d.activeEth
  else .empty

/-- Source write `data.activeTrades[asset] = null`. -/
def clearSlot (d : BlobState) (asset : String) : BlobState :=
  if asset == "btc" then { d with activeBtc := .empty }
  else if asset == "eth" then { d with activeEth := .empty }
  else d

/-- The route's guard `if (!trade || !trade.setup)`: only a wrapped slot
exposes a `setup` field. -/
def slotSetup : ActiveSlot → Option Setup
  | .empty => none
  | .bare _ => none
  | .wrapped s => some s

/-- ASCII lowercasing of one character (the effect of JavaScript
`toLowerCase` on the asset names used here). -/
def lowerChar (c : Char) : Char :=
  if 'A' ≤ c ∧ c ≤ 'Z' then Char.ofNat (c.toNat + 32) else c

/-- Model of `asset.toLowerCase()` for ASCII asset names. -/
def strToLower (s : String) : String := ⟨s.data.map lowerChar⟩

/-- Truthiness of a stored outcome (`t.outcome` as a JavaScript Boolean). -/
def outcomeTruthy : Option String → Bool
  | none => false
  | some s => !(s == "")

/-- Apply `f` to the first stored trade matching the route's
`find` predicate (same asset, same setup timestamp, falsy outcome);
`none` when no trade matches. -/
def closeInList (a : String) (ts : ℕ) (f : Trade → Trade) :
    List Trade → Option (List Trade)
  | [] => none
  | t :: rest =>
    if t.asset == a && t.setup.timestamp == ts && !(outcomeTruthy t.outcome) then
      some (f t :: rest)
    else (closeInList a ts f rest).map (t :: ·)

/-- The fresh record the route pushes when no open record matches.
The route copies none of the regime/session snapshot fields. -/
def manualRecord (a : String) (s : Setup) (outcome : String) (profit : ℚ)
    (exitPrice : ℚ) (now : ℕ) : Trade :=
  { asset := a
    timestamp := s.timestamp
    setup := s
    outcome := some outcome
    profit := profit
    exitPrice := some exitPrice
    exitTime := some now
    closedBy := some "MANUAL_API"
    marketCondition := ""
    volatilityLevel := ""
    sessionActive := "" }

/-- The in-place mutation the route applies to a found open record:
outcome, provided profit, exit price/time, `closedBy = MANUAL_API`. -/
def manualUpdate (outcome : String) (profit exitPrice : ℚ) (now : ℕ)
    (t : Trade) : Trade :=
  { t with outcome := some outcome, profit := profit,
           exitPrice := some exitPrice, exitTime := some now,
           closedBy := some "MANUAL_API" }

/-- The route's trade-list mutation: update the first matching open record
in place, or push a fresh record when none matches. -/
def manualCloseTrades (trades : List Trade) (a : String) (s : Setup)
    (outcome : String) (profit exitPrice : ℚ) (now : ℕ) : List Trade :=
  match closeInList a s.timestamp (manualUpdate outcome profit exitPrice now) trades with
  | some l => l
  | none => trades ++ [manualRecord a s outcome profit exitPrice now]

/-- The blob produced by the route's success path: trade list mutated,
active slot cleared, `totalTrades` refreshed, only the matching outcome
counter bumped ("simplified" performance update — no other aggregate
field is touched). -/
def manualCloseResult (d : BlobState) (a : String) (s : Setup)
    (outcome : String) (profit : Option ℚ) (exitPrice : ℚ) (now : ℕ) : BlobState :=
  let trades' := manualCloseTrades d.trades a s outcome (profit.getD 0) exitPrice now
  let d' := clearSlot { d with trades := trades' } a
  let p := d'.performance
  let p := { p with totalTrades := trades'.length }
  let p :=
    if outcome == "WIN" then { p with winners := p.winners + 1 }
    else if outcome == "LOSS" then { p with losers := p.losers + 1 }
    else if outcome == "BREAKEVEN" then { p with breakevenTrades := p.breakevenTrades + 1 }
    else p
  { d' with performance := p }

/-- Route `POST /api/trades/close`: validates the payload, requires an
active trade whose slot exposes a `setup` (engine-format bare setups are
rejected as not found), then runs the success path above. -/
def closeTradeManual (d : BlobState) (asset outcome : String)
    (profit : Option ℚ) (exitPrice : ℚ) (now : ℕ) : Except String BlobState :=
  if asset == "" || outcome == "" || exitPrice == 0 then
    Except.error "Missing required fields: asset, outcome, exitPrice"
  else
    let a := strToLower asset
    match slotSetup (getSlot d a) with
    | none => Except.error ("No active trade found for " ++ asset)
    | some s => Except.ok (manualCloseResult d a s outcome profit exitPrice now)

/-! ## Spec-side definitions (for refinement comparisons only) -/

/-- Modelled from the spec: "Momentum: average of the last 3 pctChange
values" (spec section 4.3) — the arithmetic mean of the last 3 `pctChange`
samples, before any clamping. -/
def specMeanLast3 (hist : List PriceSample) : ℚ :=
  (((lastN 3 hist).map (·.change)).sum) / 3

/-- Modelled from the spec: the momentum the Signal Generator is claimed
to use — the mean of the last 3 pctChange values clamped to `[-2, 2]`
(claim C6 / spec section 4.3). -/
def specMomentum (hist : List PriceSample) : ℚ :=
  max (-2) (min 2 (specMeanLast3 hist))

/-- Modelled from the spec: recomputation of every `PerformanceAggregate`
field from the trade-record list alone (spec sections 3 and 4.5, claim C5):
counts by outcome, `winRate`/`breakevenRate` as percentages, mean absolute
profit over the WIN/LOSS subsets, profit factor with an infinite sentinel,
and `totalProfit` as the sum of recorded profit. -/
def recomputePerformance (trades : List Trade) : Performance :=
  let total := trades.length
  let winners := (trades.filter (fun t => t.outcome == some "WIN")).length
  let losers := (trades.filter (fun t => t.outcome == some "LOSS")).length
  let brk := (trades.filter (fun t => t.outcome == some "BREAKEVEN")).length
  let tw := totalWinAmount trades
  let tl := totalLossAmount trades
  { totalTrades := total
    winners := winners
    losers := losers
    breakevenTrades := brk
    totalProfit := (trades.map (·.profit)).sum
    winRate := if 0 < total then ((winners : ℚ) / (total : ℚ)) * 100 else 0
    profitFactor := if 0 < tl then ((tw / tl : ℚ) : WithTop ℚ) else if 0 < tw then ⊤ else 0
    avgWin := if 0 < winners then tw / (winners : ℚ) else 0
    avgLoss := if 0 < losers then tl / (losers : ℚ) else 0
    breakevenRate := if 0 < total then ((brk : ℚ) / (total : ℚ)) * 100 else 0 }

/-! ## General helper lemmas -/

/-- Engine records keep their entry price inside `setup`, so the
`t.setup?.entryPrice || t.entryPrice || 0` chain collapses to the setup's
entry price. -/
theorem tradeEntryPrice_eq (t : Trade) : tradeEntryPrice t = t.setup.entryPrice := by
  unfold tradeEntryPrice
  split
  · rfl
  · simp_all

/-- The `setup.entryPrice || 0` read collapses to the entry price. -/
theorem setupEntryOr0_eq (s : Setup) : setupEntryOr0 s = s.entryPrice := by
  unfold setupEntryOr0
  split
  · rfl
  · simp_all

/-! ## Claim C1: end-to-end conservative BULLISH scenario -/

/-- The position opened at entry price 100 under the conservative preset
(`generateAISetup` with positive momentum). -/
def c1Setup : Setup := generateAISetup 100 10 1 conservative "RANGING" "NORMAL" "LONDON" 1

/-- The setup `c1Setup` written out as a literal. -/
def c1SetupLit : Setup :=
  { direction := .BULLISH, entry := ⟨1999/20, 2001/20⟩, stop := 199/2,
    originalStop := none, t1 := 403/4, t2 := 405/4, entryPrice := 100,
    confidence := 10, timestamp := 1, status := "ACTIVE",
    reachedTarget1 := false, reachedTarget2 := false, recorded := false,
    marketCondition := "RANGING", volatilityLevel := "NORMAL", sessionActive := "LONDON" }

/-- The setup after target 1 is hit: breakeven-armed, stop moved to the
entry midpoint 100. -/
def c1Armed : Setup :=
  { c1SetupLit with reachedTarget1 := true, originalStop := some (199/2), stop := 100 }

/-- Empty trade database. -/
def c1Db0 : DB := ⟨[], initialPerformance⟩

/-- The trade record produced at target 2: the recorder stores
`realizedPnL = 30` (degenerate-stop fallback), not 25. -/
def c1Rec : Trade :=
  { asset := "btc", setup := { c1Armed with recorded := true }, outcome := some "WIN",
    profit := 30, timestamp := 1, marketCondition := "RANGING",
    volatilityLevel := "NORMAL", sessionActive := "LONDON",
    closedBy := none, exitPrice := none, exitTime := none }

/-- The performance aggregate after the WIN is recorded. -/
def c1Perf : Performance :=
  { totalTrades := 1, winners := 1, losers := 0, breakevenTrades := 0,
    totalProfit := 0, winRate := 100, profitFactor := ⊤, avgWin := 30,
    avgLoss := 0, breakevenRate := 0 }

/-- The claimed price sequence. -/
def c1Ticks : List ℚ := [100, 504/5, 1013/10]

/-- The engine state after driving the scenario through `updateTradeStatus`
(and `recordTradeOutcome` on close) over the three ticks. -/
def c1Run : EngineState :=
  c1Ticks.foldl (engineTick "btc" "RANGING" "NORMAL" "LONDON" 9) ⟨some c1Setup, c1Db0⟩

theorem c1Setup_eq : c1Setup = c1SetupLit := by
  norm_num [c1Setup, c1SetupLit, generateAISetup, calculateSetupLevels, conservative]

theorem c1_tick1 :
    engineTick "btc" "RANGING" "NORMAL" "LONDON" 9 ⟨some c1SetupLit, c1Db0⟩ 100 =
      ⟨some c1SetupLit, c1Db0⟩ := by
  norm_num [engineTick, updateTradeStatus, hitUp, hitDown, effectiveStop, entryAvgOf, c1SetupLit]

theorem c1_tick2 :
    engineTick "btc" "RANGING" "NORMAL" "LONDON" 9 ⟨some c1SetupLit, c1Db0⟩ (504/5) =
      ⟨some c1Armed, c1Db0⟩ := by
  norm_num [engineTick, updateTradeStatus, hitUp, hitDown, effectiveStop, entryAvgOf,
    c1SetupLit, c1Armed]

theorem c1_tick3 :
    engineTick "btc" "RANGING" "NORMAL" "LONDON" 9 ⟨some c1Armed, c1Db0⟩ (1013/10) =
      ⟨none, ⟨[c1Rec], c1Perf⟩⟩ := by
  norm_num +decide [engineTick, updateTradeStatus, hitUp, hitDown, effectiveStop, entryAvgOf,
    recordTradeOutcome, isRecordable, isDuplicate, realizedPnLFor, winRealizedPnL,
    totalWinAmount, totalLossAmount, riskPerTrade, c1Db0, c1Armed, c1SetupLit, c1Rec, c1Perf,
    initialPerformance, List.filter]

theorem c1Run_eq : c1Run = ⟨none, ⟨[c1Rec], c1Perf⟩⟩ := by
  rw [c1Run, c1Ticks, c1Setup_eq]
  rw [List.foldl_cons, c1_tick1, List.foldl_cons, c1_tick2, List.foldl_cons, c1_tick3,
    List.foldl_nil]

/-- C1 (amended).  Conservative BULLISH position at entry 100: stop 99.5,
target1 100.75, target2 101.25; the tick at 100 changes nothing; the tick
at 100.8 crosses target1 and moves the stop to the breakeven midpoint 100;
the tick at 101.3 crosses target2 and closes with outcome WIN, handing
profit |101.25 - 100| = 1.25 to the recorder.  But the final TradeRecord's
realized P&L is 30, not 25: the stop was already moved to breakeven, so
the WIN formula's stop distance is 0 and the degenerate fallback
`RISK_PER_TRADE * 3` applies. -/
theorem c1_end_to_end_amended :
    c1Setup.stop = 199/2 ∧ c1Setup.t1 = 403/4 ∧ c1Setup.t2 = 405/4 ∧
    updateTradeStatus c1Setup 100 = ⟨some c1Setup, none⟩ ∧
    (updateTradeStatus c1Setup (504/5)).active = some c1Armed ∧
    c1Armed.reachedTarget1 = true ∧ c1Armed.stop = 100 ∧
    (updateTradeStatus c1Armed (1013/10)).closeEvent = some ("WIN", 5/4) ∧
    c1Run = ⟨none, ⟨[c1Rec], c1Perf⟩⟩ ∧
    c1Rec.outcome = some "WIN" ∧ c1Rec.profit = 30 := by
  refine ⟨?_, ?_, ?_, ?_, ?_, rfl, rfl, ?_, c1Run_eq, rfl, rfl⟩
  · rw [c1Setup_eq]; norm_num [c1SetupLit]
  · rw [c1Setup_eq]; norm_num [c1SetupLit]
  · rw [c1Setup_eq]; norm_num [c1SetupLit]
  · rw [c1Setup_eq]
    norm_num [updateTradeStatus, hitUp, hitDown, effectiveStop, entryAvgOf, c1SetupLit]
  · rw [c1Setup_eq]
    norm_num [updateTradeStatus, hitUp, hitDown, effectiveStop, entryAvgOf, c1SetupLit, c1Armed]
  · norm_num [updateTradeStatus, hitUp, hitDown, effectiveStop, entryAvgOf, c1Armed, c1SetupLit]

/-- C1 counterexample.  In the claimed scenario the recorded trade's
realized P&L is 30, not 25 as the claim states. -/
theorem c1_realizedPnL_counterexample :
    c1Run.db.trades.map (fun t => t.profit) = [30] ∧
    ¬ c1Run.db.trades.map (fun t => t.profit) = [25] := by
  rw [c1Run_eq]
  norm_num [c1Rec]

/-! ## Claim C2: random momentum fallback under insufficient history -/

/-- C2 (code bug witness).  With an empty price history (fewer than 3
samples) `calculateMomentum` does not defer: it returns `1` or `-1`
depending on the `Math.random()` draw, and `scanForSignals` still admits
a position whose direction is chosen by that draw (here under the
conservative preset, cooldown elapsed, no active position). -/
theorem c2_random_fallback_position :
    calculateMomentum [] (3/4) = 1 ∧ calculateMomentum [] (1/4) = -1 ∧
    ((scanForSignals 60000 0 none [] (3/4) 0 "RANGING" "NORMAL" "LONDON"
        conservative 100).map (fun s => s.direction)) = some .BULLISH ∧
    ((scanForSignals 60000 0 none [] (1/4) 0 "RANGING" "NORMAL" "LONDON"
        conservative 100).map (fun s => s.direction)) = some .BEARISH := by
  refine ⟨by norm_num [calculateMomentum], by norm_num [calculateMomentum], ?_, ?_⟩ <;>
    norm_num +decide [scanForSignals, calculateMomentum, scanConfidence, generateAISetup,
      calculateSetupLevels, conservative]

/-! ## Claim C6: momentum formula for at least 3 samples -/

/-- Folding price-change accumulation equals the sum of the mapped
changes. -/
theorem foldl_add_change (l : List PriceSample) (a : ℚ) :
    l.foldl (fun s p => s + p.change) a = a + (l.map (fun p => p.change)).sum := by
  induction l generalizing a with
  | nil => simp
  | cons p rest ih => simp [ih, add_assoc]

/-- A three-sample history whose pctChange values are all 2. -/
def c6Hist : List PriceSample := [⟨100, 2, 0⟩, ⟨100, 2, 0⟩, ⟨100, 2, 0⟩]

/-- C6 counterexample.  On a history whose last 3 pctChange values are all
2 the code's momentum is 1, while the claimed value — the mean of the last
3 pctChange values clamped to `[-2, 2]` — is 2. -/
theorem c6_momentum_counterexample :
    calculateMomentum c6Hist 0 = 1 ∧ specMomentum c6Hist = 2 ∧
    ¬ calculateMomentum c6Hist 0 = specMomentum c6Hist := by
  norm_num [calculateMomentum, specMomentum, specMeanLast3, c6Hist, lastN]

/-- C6 (amended).  For a history with at least 3 samples the momentum used
by the signal scanner equals the arithmetic mean of the last 3 pctChange
values divided by 2, clamped to `[-2, 2]`. -/
theorem c6_momentum_amended (hist : List PriceSample) (rand : ℚ)
    (h : 3 ≤ hist.length) :
    calculateMomentum hist rand = max (-2) (min 2 (specMeanLast3 hist / 2)) := by
  unfold calculateMomentum
  rw [if_neg (by omega)]
  have hlen : (lastN 3 hist).length = 3 := by
    simp only [lastN, List.length_drop]
    omega
  simp only [foldl_add_change, hlen, specMeanLast3]
  norm_num

/-- C6 witness: the amended momentum formula evaluated on the concrete
three-sample history. -/
theorem c6_momentum_amended_witness :
    3 ≤ c6Hist.length ∧
    calculateMomentum c6Hist 0 = max (-2) (min 2 (specMeanLast3 c6Hist / 2)) :=
  ⟨by norm_num [c6Hist], c6_momentum_amended c6Hist 0 (by norm_num [c6Hist])⟩

/-! ## Claim C3: target-2 precedence over the breakeven stop -/

/-- C3.  For an active position that is breakeven-armed
(`reachedTarget1 = true`, `reachedTarget2 = false`), a tick whose price
satisfies both the target-2 crossing and the breakeven-stop crossing
closes as WIN, never as BREAKEVEN: the target-2 rule is evaluated first
and ends the pass, in both the trading engine's `updateTradeStatus` and
the exit engine's per-trade check. -/
theorem c3_win_beats_breakeven (s : Setup) (price : ℚ)
    (h1 : s.reachedTarget1 = true) (h2 : s.reachedTarget2 = false)
    (hp : 0 < price)
    (hT2 : hitUp s.direction price s.t2 = true)
    (hBE : hitDown s.direction price s.stop = true) :
    updateTradeStatus s price = ⟨none, some ("WIN", |s.t2 - entryAvgOf s|)⟩ ∧
    (s.entryPrice ≠ 0 →
      checkTradeExitStep s price =
        ⟨none, some ("WIN", |s.t2 - (s.entry.min + s.entry.max) / 2|)⟩) := by
  constructor
  · simp [updateTradeStatus, h1, h2, hT2, not_le.mpr hp]
  · intro he
    simp [checkTradeExitStep, h1, h2, hT2, he, not_le.mpr hp]

/-- A breakeven-armed BULLISH position whose (moved) stop lies above
target 2, so that one tick can cross both levels at once. -/
def c3Setup : Setup :=
  { direction := .BULLISH, entry := ⟨100, 100⟩, stop := 102,
    originalStop := some (199/2), t1 := 201/2, t2 := 101, entryPrice := 100,
    confidence := 10, timestamp := 4, status := "ACTIVE",
    reachedTarget1 := true, reachedTarget2 := false, recorded := false,
    marketCondition := "RANGING", volatilityLevel := "NORMAL", sessionActive := "LONDON" }

/-- C3 witness: at price 101.5 the position crosses target 2 (101) and the
breakeven stop (102) simultaneously, and both exit checks record WIN. -/
theorem c3_win_beats_breakeven_witness :
    updateTradeStatus c3Setup (203/2) =
      ⟨none, some ("WIN", |c3Setup.t2 - entryAvgOf c3Setup|)⟩ ∧
    (c3Setup.entryPrice ≠ 0 →
      checkTradeExitStep c3Setup (203/2) =
        ⟨none, some ("WIN", |c3Setup.t2 - (c3Setup.entry.min + c3Setup.entry.max) / 2|)⟩) :=
  c3_win_beats_breakeven c3Setup (203/2) rfl rfl (by norm_num)
    (by norm_num [hitUp, c3Setup]) (by norm_num [hitDown, c3Setup])

/-! ## Claim C4: idempotency of the outcome recorder -/

/-- The record the successful path of the recorder appends (the trade
literal built inside `recordTradeOutcome`). -/
def appendedRecord (s : Setup) (asset u mc vl sess : String) (now : ℕ) : Trade :=
  { asset := asset
    setup := { s with recorded := true }
    outcome := some u
    profit := realizedPnLFor { s with recorded := true } u
    timestamp := if s.timestamp ≠ 0 then s.timestamp else now
    marketCondition := if s.marketCondition ≠ "" then s.marketCondition else mc
    volatilityLevel := if s.volatilityLevel ≠ "" then s.volatilityLevel else vl
    sessionActive := if s.sessionActive ≠ "" then s.sessionActive else sess
    closedBy := none
    exitPrice := none
    exitTime := none }

/-- The successful path of the recorder appends exactly one record. -/
theorem recordTradeOutcome_success_shape
    (db : DB) (asset : String) (s : Setup) (u : String) (p : ℚ)
    (mc vl sess : String) (now : ℕ)
    (hrable : isRecordable (some u) = true) (hrec : s.recorded = false)
    (hdup : isDuplicate db.trades asset s u = false) :
    (recordTradeOutcome db asset s (some u) p mc vl sess now).1.trades
      = db.trades ++ [appendedRecord s asset u mc vl sess now] := by
  simp [recordTradeOutcome, hrable, hrec, hdup, appendedRecord]

/-- A recordable outcome string is non-empty. -/
theorem isRecordable_ne_empty (u : String) (hrable : isRecordable (some u) = true) :
    (u == "") = false := by
  simp only [isRecordable, Bool.not_eq_true'] at hrable
  simp only [Bool.or_eq_false_iff] at hrable
  exact hrable.1.1

/-- C4.  The outcome recorder is a no-op whenever any of its three guards
rejects — the outcome is non-terminal, the setup is already marked
recorded, or a stored record for the same asset has the same outcome and
an entry price within 0.5 — and recording the same close a second time
(same asset, same outcome, entry price within 0.5 of the first) is a
no-op, leaving exactly one appended TradeRecord. -/
theorem c4_record_idempotent
    (db : DB) (asset : String) (s : Setup) (oc : Option String) (p : ℚ)
    (mc vl sess : String) (now : ℕ) :
    (isRecordable oc = false →
        recordTradeOutcome db asset s oc p mc vl sess now = (db, s)) ∧
    (s.recorded = true →
        recordTradeOutcome db asset s oc p mc vl sess now = (db, s)) ∧
    (∀ u, oc = some u → isDuplicate db.trades asset s u = true →
        recordTradeOutcome db asset s oc p mc vl sess now = (db, s)) ∧
    (∀ u (s₂ : Setup), oc = some u → isRecordable oc = true → s.recorded = false →
        isDuplicate db.trades asset s u = false →
        |s₂.entryPrice - s.entryPrice| < 1/2 →
        recordTradeOutcome (recordTradeOutcome db asset s oc p mc vl sess now).1
            asset s₂ oc p mc vl sess now
          = ((recordTradeOutcome db asset s oc p mc vl sess now).1, s₂)) := by
  refine ⟨?_, ?_, ?_, ?_⟩
  · intro h
    simp [recordTradeOutcome, h]
  · intro h
    by_cases hr : isRecordable oc = true <;> simp [recordTradeOutcome, h, hr]
  · rintro u rfl hdup
    by_cases hr : isRecordable (some u) = true <;>
      by_cases hrec : s.recorded = true <;>
        simp [recordTradeOutcome, hr, hrec, hdup]
  · rintro u s₂ rfl hrable hrec hdup hclose
    have htr := recordTradeOutcome_success_shape db asset s u p mc vl sess now hrable hrec hdup
    by_cases hrec2 : s₂.recorded = true
    · simp [recordTradeOutcome, hrable, hrec2]
    · have hdup2 : isDuplicate
          (recordTradeOutcome db asset s (some u) p mc vl sess now).1.trades asset s₂ u
          = true := by
        rw [htr]
        unfold isDuplicate
        rw [List.any_append]
        simp [appendedRecord, isRecordable_ne_empty u hrable]
        refine Or.inr ?_
        rw [tradeEntryPrice_eq, setupEntryOr0_eq]
        have : |({ s with recorded := true } : Setup).entryPrice - s₂.entryPrice|
            = |s₂.entryPrice - s.entryPrice| := by
          rw [abs_sub_comm]
        rw [this]
        linarith
      rw [recordTradeOutcome]
      simp [hrable, hrec2, hdup2]

/-- Setup used by the C4 witness. -/
def c4Setup : Setup :=
  { direction := .BULLISH, entry := ⟨1999/20, 2001/20⟩, stop := 199/2,
    originalStop := none, t1 := 403/4, t2 := 405/4, entryPrice := 100,
    confidence := 10, timestamp := 6, status := "ACTIVE",
    reachedTarget1 := false, reachedTarget2 := false, recorded := false,
    marketCondition := "RANGING", volatilityLevel := "NORMAL", sessionActive := "LONDON" }

/-- C4 witness: the guard no-ops and the second-call no-op, each at a
concrete input (empty database, `c4Setup`, outcome WIN; the second call
uses an entry price 0.3 away from the first). -/
theorem c4_record_idempotent_witness :
    recordTradeOutcome ⟨[], initialPerformance⟩ "btc" c4Setup (some "ACTIVE") 0
        "RANGING" "NORMAL" "LONDON" 0 = (⟨[], initialPerformance⟩, c4Setup) ∧
    recordTradeOutcome ⟨[], initialPerformance⟩ "btc" { c4Setup with recorded := true }
        (some "WIN") 0 "RANGING" "NORMAL" "LONDON" 0
      = (⟨[], initialPerformance⟩, { c4Setup with recorded := true }) ∧
    recordTradeOutcome
        (recordTradeOutcome ⟨[], initialPerformance⟩ "btc" c4Setup (some "WIN") 0
          "RANGING" "NORMAL" "LONDON" 0).1
        "btc" { c4Setup with entryPrice := 1003/10 } (some "WIN") 0
        "RANGING" "NORMAL" "LONDON" 0
      = ((recordTradeOutcome ⟨[], initialPerformance⟩ "btc" c4Setup (some "WIN") 0
          "RANGING" "NORMAL" "LONDON" 0).1, { c4Setup with entryPrice := 1003/10 }) := by
  refine ⟨?_, ?_, ?_⟩
  · exact (c4_record_idempotent ⟨[], initialPerformance⟩ "btc" c4Setup (some "ACTIVE") 0
      "RANGING" "NORMAL" "LONDON" 0).1 (by decide)
  · exact (c4_record_idempotent ⟨[], initialPerformance⟩ "btc"
      { c4Setup with recorded := true } (some "WIN") 0 "RANGING" "NORMAL" "LONDON" 0).2.1 rfl
  · exact (c4_record_idempotent ⟨[], initialPerformance⟩ "btc" c4Setup (some "WIN") 0
      "RANGING" "NORMAL" "LONDON" 0).2.2.2 "WIN" { c4Setup with entryPrice := 1003/10 }
      rfl (by decide) rfl (by decide) (by norm_num [c4Setup, abs_lt])

/-! ## Claim C5: performance aggregate versus full recomputation -/

/-- Setup used by the C5 failing input (stop still at its original level,
so the WIN formula is non-degenerate and yields 25). -/
def c5Setup : Setup :=
  { direction := .BULLISH, entry := ⟨1999/20, 2001/20⟩, stop := 199/2,
    originalStop := none, t1 := 403/4, t2 := 405/4, entryPrice := 100,
    confidence := 10, timestamp := 2, status := "ACTIVE",
    reachedTarget1 := false, reachedTarget2 := false, recorded := false,
    marketCondition := "RANGING", volatilityLevel := "NORMAL", sessionActive := "LONDON" }

/-- Database after one successful WIN record on an empty database. -/
def c5Db : DB :=
  (recordTradeOutcome ⟨[], initialPerformance⟩ "btc" c5Setup (some "WIN") (5/4)
    "RANGING" "NORMAL" "LONDON" 3).1

/-- C5 (code bug witness).  After a successful WIN record the trading
engine's aggregate keeps `totalProfit = 0`, while recomputing every field
from the trade list alone gives `totalProfit = 25`: the stored aggregate
is not the recomputation of the trade list. -/
theorem c5_totalProfit_not_recomputed :
    c5Db.performance.totalProfit = 0 ∧
    (recomputePerformance c5Db.trades).totalProfit = 25 ∧
    c5Db.performance ≠ recomputePerformance c5Db.trades := by
  have h1 : c5Db.performance.totalProfit = 0 := by
    norm_num +decide [c5Db, recordTradeOutcome, isRecordable, isDuplicate, realizedPnLFor,
      winRealizedPnL, totalWinAmount, totalLossAmount, riskPerTrade, c5Setup,
      initialPerformance, List.filter]
  have h2 : (recomputePerformance c5Db.trades).totalProfit = 25 := by
    have ha : |(1:ℚ)/200| = 1/200 := abs_of_pos (by norm_num)
    have hb : |(1:ℚ)/80| = 1/80 := abs_of_pos (by norm_num)
    norm_num +decide [c5Db, recordTradeOutcome, isRecordable, isDuplicate, realizedPnLFor,
      winRealizedPnL, totalWinAmount, totalLossAmount, riskPerTrade, c5Setup,
      initialPerformance, List.filter, recomputePerformance, ha, hb]
  refine ⟨h1, h2, fun h => ?_⟩
  rw [h, h2] at h1
  norm_num at h1

/-! ## Claim C7: the manual close route -/

/-- A successful in-place update by `closeInList` preserves the list
length. -/
theorem closeInList_some_length (a : String) (ts : ℕ) (f : Trade → Trade)
    (l : List Trade) :
    ∀ l', closeInList a ts f l = some l' → l'.length = l.length := by
  induction l with
  | nil => intro l' h; exact absurd h (by simp [closeInList])
  | cons t rest ih =>
    intro l' h
    simp only [closeInList] at h
    by_cases hp : (t.asset == a && t.setup.timestamp == ts && !(outcomeTruthy t.outcome)) = true
    · rw [if_pos hp] at h
      have := Option.some.inj h
      subst this
      simp
    · rw [if_neg hp] at h
      obtain ⟨l'', h1, h2⟩ := Option.map_eq_some'.mp h
      subst h2
      simp [ih l'' h1]

/-- A successful in-place update by `closeInList` hits a stored trade that
matches the find predicate, and the updated trade is in the result. -/
theorem closeInList_some_mem (a : String) (ts : ℕ) (f : Trade → Trade)
    (l : List Trade) :
    ∀ l', closeInList a ts f l = some l' →
      ∃ t ∈ l,
        (t.asset == a && t.setup.timestamp == ts && !(outcomeTruthy t.outcome)) = true ∧
        f t ∈ l' := by
  induction l with
  | nil => intro l' h; exact absurd h (by simp [closeInList])
  | cons t rest ih =>
    intro l' h
    simp only [closeInList] at h
    by_cases hp : (t.asset == a && t.setup.timestamp == ts && !(outcomeTruthy t.outcome)) = true
    · rw [if_pos hp] at h
      have := Option.some.inj h
      subst this
      exact ⟨t, List.mem_cons_self t rest, hp, List.mem_cons_self (f t) rest⟩
    · rw [if_neg hp] at h
      obtain ⟨l'', h1, h2⟩ := Option.map_eq_some'.mp h
      subst h2
      obtain ⟨t', ht'mem, ht'p, ht'f⟩ := ih l'' h1
      exact ⟨t', List.mem_cons_of_mem t ht'mem, ht'p, List.mem_cons_of_mem t ht'f⟩

/-- Only the btc and eth slots can hold an active trade exposing a setup. -/
theorem slot_asset_cases (d : BlobState) (a : String) (s : Setup)
    (hs : slotSetup (getSlot d a) = some s) : a = "btc" ∨ a = "eth" := by
  by_cases h1 : a = "btc"
  · exact Or.inl h1
  by_cases h2 : a = "eth"
  · exact Or.inr h2
  exfalso
  have hempty : getSlot d a = .empty := by simp [getSlot, h1, h2]
  rw [hempty] at hs
  exact absurd hs (by simp [slotSetup])

/-- Clearing a slot leaves the trade list untouched. -/
theorem clearSlot_trades (x : BlobState) (a : String) :
    (clearSlot x a).trades = x.trades := by
  unfold clearSlot
  split_ifs <;> rfl

/-- Clearing a slot leaves the performance aggregate untouched. -/
theorem clearSlot_performance (x : BlobState) (a : String) :
    (clearSlot x a).performance = x.performance := by
  unfold clearSlot
  split_ifs <;> rfl

/-- What the manual close route does on a valid payload when the named
asset's slot exposes a setup: it succeeds; it updates the first matching
open record in place (list length unchanged) or, when none matches,
appends a fresh record built from the slot's setup; the closed record
carries the lowercased asset, the given outcome, the provided profit
(default 0), the exit price and time, and `closedBy = MANUAL_API`; the
named asset's slot is cleared and every other slot is untouched; and the
only aggregate updates are `totalTrades` and the matching outcome counter
— `winRate`, `profitFactor`, `totalProfit`, `avgWin`, `avgLoss` and
`breakevenRate` keep their previous values. -/
def ManualCloseSpec (d : BlobState) (asset outcome : String) (profit : Option ℚ)
    (exitPrice : ℚ) (now : ℕ) (s : Setup) : Prop :=
  ∃ d', closeTradeManual d asset outcome profit exitPrice now = Except.ok d' ∧
    ((∃ l, closeInList (strToLower asset) s.timestamp
          (manualUpdate outcome (profit.getD 0) exitPrice now) d.trades = some l ∧
        d'.trades = l ∧ d'.trades.length = d.trades.length) ∨
     (closeInList (strToLower asset) s.timestamp
          (manualUpdate outcome (profit.getD 0) exitPrice now) d.trades = none ∧
        d'.trades = d.trades ++
          [manualRecord (strToLower asset) s outcome (profit.getD 0) exitPrice now])) ∧
    (∃ r ∈ d'.trades, r.asset = strToLower asset ∧ r.outcome = some outcome ∧
        r.profit = profit.getD 0 ∧ r.exitPrice = some exitPrice ∧
        r.exitTime = some now ∧ r.closedBy = some "MANUAL_API") ∧
    getSlot d' (strToLower asset) = ActiveSlot.empty ∧
    (∀ b, ¬ b = strToLower asset → getSlot d' b = getSlot d b) ∧
    d'.performance.totalTrades = d'.trades.length ∧
    d'.performance.winners
      = (if outcome = "WIN" then d.performance.winners + 1 else d.performance.winners) ∧
    d'.performance.losers
      = (if outcome = "LOSS" then d.performance.losers + 1 else d.performance.losers) ∧
    d'.performance.breakevenTrades
      = (if outcome = "BREAKEVEN" then d.performance.breakevenTrades + 1
         else d.performance.breakevenTrades) ∧
    d'.performance.winRate = d.performance.winRate ∧
    d'.performance.profitFactor = d.performance.profitFactor ∧
    d'.performance.totalProfit = d.performance.totalProfit ∧
    d'.performance.avgWin = d.performance.avgWin ∧
    d'.performance.avgLoss = d.performance.avgLoss ∧
    d'.performance.breakevenRate = d.performance.breakevenRate

/-- C7 (amended).  The manual close interface, given a payload with
non-empty asset and outcome and a non-zero exit price, whenever the named
asset's active slot holds a trade exposing a setup object — for either
asset, and on both the update-in-place and the append branch — closes the
position through its own inline simplified path as described by
`ManualCloseSpec`: record tagged `closedBy = MANUAL_API` (not `MANUAL`),
slot cleared, and only `totalTrades` plus the matching outcome counter
updated, rather than the Outcome Recorder's P&L formula and aggregate
updates. -/
theorem c7_manual_close_amended
    (d : BlobState) (asset outcome : String) (profit : Option ℚ) (exitPrice : ℚ)
    (now : ℕ) (s : Setup)
    (ha' : ¬ asset = "") (ho : ¬ outcome = "") (he : ¬ exitPrice = 0)
    (hs : slotSetup (getSlot d (strToLower asset)) = some s) :
    ManualCloseSpec d asset outcome profit exitPrice now s := by
  have hkey : closeTradeManual d asset outcome profit exitPrice now
      = Except.ok (manualCloseResult d (strToLower asset) s outcome profit exitPrice now) := by
    simp only [closeTradeManual]
    rw [if_neg (by simp [ha', ho, he])]
    rw [hs]
  have hab := slot_asset_cases d (strToLower asset) s hs
  have htr : (manualCloseResult d (strToLower asset) s outcome profit exitPrice now).trades
      = manualCloseTrades d.trades (strToLower asset) s outcome (profit.getD 0)
          exitPrice now := by
    simp [manualCloseResult, clearSlot_trades]
  refine ⟨manualCloseResult d (strToLower asset) s outcome profit exitPrice now,
    hkey, ?_, ?_, ?_, ?_, ?_, ?_, ?_, ?_, ?_, ?_, ?_, ?_, ?_, ?_⟩
  · -- updates or appends
    rcases hC : closeInList (strToLower asset) s.timestamp
        (manualUpdate outcome (profit.getD 0) exitPrice now) d.trades with _ | l
    · exact Or.inr ⟨rfl, by rw [htr]; simp [manualCloseTrades, hC]⟩
    · refine Or.inl ⟨l, rfl, by rw [htr]; simp [manualCloseTrades, hC], ?_⟩
      rw [htr]
      simp only [manualCloseTrades, hC]
      exact closeInList_some_length _ _ _ d.trades l hC
  · -- the closed record
    rcases hC : closeInList (strToLower asset) s.timestamp
        (manualUpdate outcome (profit.getD 0) exitPrice now) d.trades with _ | l
    · refine ⟨manualRecord (strToLower asset) s outcome (profit.getD 0) exitPrice now,
        ?_, rfl, rfl, rfl, rfl, rfl, rfl⟩
      rw [htr]
      simp [manualCloseTrades, hC, manualRecord]
    · obtain ⟨t, htmem, htp, htf⟩ := closeInList_some_mem _ _ _ d.trades l hC
      refine ⟨manualUpdate outcome (profit.getD 0) exitPrice now t, ?_, ?_, rfl, rfl,
        rfl, rfl, rfl⟩
      · rw [htr]
        simp only [manualCloseTrades, hC]
        exact htf
      · simp only [Bool.and_eq_true, beq_iff_eq] at htp
        exact htp.1.1
  · -- the named slot is cleared
    rcases hab with h | h <;> rw [h] <;>
      simp [manualCloseResult, getSlot, clearSlot]
  · -- other slots untouched
    intro b hb
    rcases hab with h | h <;> rw [h] at hb ⊢ <;>
      by_cases hb2 : b = "btc" <;> by_cases hb3 : b = "eth" <;>
        simp_all [manualCloseResult, getSlot, clearSlot]
  · rw [htr]
    simp [manualCloseResult, clearSlot_performance]
    split_ifs <;> rfl
  · simp [manualCloseResult, clearSlot_performance]
    split_ifs <;> simp_all
  · simp [manualCloseResult, clearSlot_performance]
    split_ifs <;> simp_all
  · simp [manualCloseResult, clearSlot_performance]
    split_ifs <;> simp_all
  · simp [manualCloseResult, clearSlot_performance]
    split_ifs <;> simp_all
  · simp [manualCloseResult, clearSlot_performance]
    split_ifs <;> simp_all
  · simp [manualCloseResult, clearSlot_performance]
    split_ifs <;> simp_all
  · simp [manualCloseResult, clearSlot_performance]
    split_ifs <;> simp_all
  · simp [manualCloseResult, clearSlot_performance]
    split_ifs <;> simp_all
  · simp [manualCloseResult, clearSlot_performance]
    split_ifs <;> simp_all

/-- The wrapped setup used by the C7 concrete runs. -/
def c7Setup0 : Setup :=
  { direction := .BULLISH, entry := ⟨1999/20, 2001/20⟩, stop := 199/2,
    originalStop := none, t1 := 403/4, t2 := 405/4, entryPrice := 100,
    confidence := 10, timestamp := 42, status := "ACTIVE",
    reachedTarget1 := false, reachedTarget2 := false, recorded := false,
    marketCondition := "RANGING", volatilityLevel := "NORMAL",
    sessionActive := "LONDON" }

/-- Blob with an active wrapped btc trade and an empty trade list. -/
def c7Data : BlobState := ⟨[], .wrapped c7Setup0, .empty, initialPerformance⟩

/-- The same blob but with the active trade stored in the engine's bare
format (a setup object with no `setup` field). -/
def c7DataBare : BlobState := ⟨[], .bare c7Setup0, .empty, initialPerformance⟩

/-- C7 counterexample.  At the same concrete close: the record is tagged
`MANUAL_API`, not the claimed `MANUAL`; the route leaves `winRate` at 0
while the Outcome Recorder on the same WIN sets it to 100 (so the route is
not the recorder path and does not update performance the same way); and
an active position stored in the engine's bare format is not closable at
all — the route answers not-found. -/
theorem c7_closedBy_counterexample :
    (closeTradeManual c7Data "btc" "WIN" (some 5) 101 7).toOption.map
        (fun d => d.trades.map (fun t => t.closedBy)) = some [some "MANUAL_API"] ∧
    ¬ (some "MANUAL_API" : Option String) = some "MANUAL" ∧
    (closeTradeManual c7Data "btc" "WIN" (some 5) 101 7).toOption.map
        (fun d => d.performance.winRate) = some 0 ∧
    (recordTradeOutcome ⟨[], initialPerformance⟩ "btc" c7Setup0 (some "WIN") 5
        "RANGING" "NORMAL" "LONDON" 7).1.performance.winRate = 100 ∧
    ¬ (0:ℚ) = 100 ∧
    closeTradeManual c7DataBare "btc" "WIN" (some 5) 101 7
      = Except.error "No active trade found for btc" := by
  refine ⟨?_, by decide, ?_, ?_, by norm_num, ?_⟩
  · norm_num +decide [closeTradeManual, manualCloseResult, manualCloseTrades, manualUpdate,
      c7Data, c7Setup0, getSlot, slotSetup, clearSlot, strToLower, lowerChar, closeInList,
      manualRecord, initialPerformance, Except.toOption]
  · norm_num +decide [closeTradeManual, manualCloseResult, manualCloseTrades, manualUpdate,
      c7Data, c7Setup0, getSlot, slotSetup, clearSlot, strToLower, lowerChar, closeInList,
      manualRecord, initialPerformance, Except.toOption]
  · norm_num +decide [recordTradeOutcome, isRecordable, isDuplicate, realizedPnLFor,
      winRealizedPnL, totalWinAmount, totalLossAmount, riskPerTrade, c7Setup0,
      initialPerformance, List.filter]
  · norm_num +decide [closeTradeManual, c7DataBare, c7Setup0, getSlot, slotSetup,
      strToLower, lowerChar]

/-- Setup held by the eth slot of the C7 witness state. -/
def c7WitnessSetup : Setup :=
  { direction := .BEARISH, entry := ⟨2001/20, 1999/20⟩, stop := 201/2,
    originalStop := none, t1 := 397/4, t2 := 395/4, entryPrice := 100,
    confidence := 11, timestamp := 43, status := "ACTIVE",
    reachedTarget1 := false, reachedTarget2 := false, recorded := false,
    marketCondition := "RANGING", volatilityLevel := "NORMAL", sessionActive := "LONDON" }

/-- A stored open record for the same eth position (no outcome yet), so
the witness exercises the in-place update branch. -/
def c7WitnessOpenRec : Trade :=
  { asset := "eth", setup := c7WitnessSetup, outcome := none, profit := 0,
    timestamp := 43, marketCondition := "RANGING", volatilityLevel := "NORMAL",
    sessionActive := "LONDON", closedBy := none, exitPrice := none, exitTime := none }

/-- C7 witness: the amended route behaviour at a concrete state — an eth
close with an existing matching open record, payload asset written in
upper case. -/
theorem c7_manual_close_amended_witness :
    ManualCloseSpec ⟨[c7WitnessOpenRec], .empty, .wrapped c7WitnessSetup, initialPerformance⟩
      "ETH" "LOSS" none 99 8 c7WitnessSetup :=
  c7_manual_close_amended
    ⟨[c7WitnessOpenRec], .empty, .wrapped c7WitnessSetup, initialPerformance⟩
    "ETH" "LOSS" none 99 8 c7WitnessSetup
    (by decide) (by decide) (by norm_num) rfl

/-! ## Claim C8: the conservative gate always admits -/

/-- C8.  Under the conservative preset, whenever the per-asset cooldown
has elapsed and no position is active, the confidence is at least 8 for
every random draw in `[0, 1)`, every regime and every volatility level —
so `scanForSignals` always admits a position and the admit/deny decision
is the same across any two runs. -/
theorem c8_conservative_gate_passes
    (now lastSignal : ℕ) (hist : List PriceSample) (randMomentum randConf : ℚ)
    (mc vl sess : String) (price : ℚ)
    (hcool : lastSignal + 60000 ≤ now)
    (hr0 : 0 ≤ randConf) (hr1 : randConf < 1) :
    8 ≤ scanConfidence randConf mc vl (calculateMomentum hist randMomentum) ∧
    (scanForSignals now lastSignal none hist randMomentum randConf mc vl sess
        conservative price).isSome = true := by
  have hfloor : (0:ℤ) ≤ Int.floor (randConf * 8) := by
    rw [Int.le_floor]
    push_cast
    nlinarith
  have hconf : ∀ m, 8 ≤ scanConfidence randConf mc vl m := by
    intro m
    simp only [scanConfidence]
    generalize Int.floor (randConf * 8) = n at hfloor ⊢
    split_ifs <;> omega
  refine ⟨hconf _, ?_⟩
  unfold scanForSignals
  rw [if_neg (by omega)]
  simp only [Option.isSome_none, Bool.false_eq_true, if_false]
  rw [if_pos (show conservative.minConfidence ≤ _ from hconf _)]
  rfl

/-- C8 witness: concrete run with the smallest base draw, a non-aligned
regime and low volatility. -/
theorem c8_conservative_gate_passes_witness :
    8 ≤ scanConfidence 0 "RANGING" "LOW" (calculateMomentum [] 0) ∧
    (scanForSignals 60000 0 none [] 0 0 "RANGING" "LOW" "LONDON"
        conservative 100).isSome = true :=
  c8_conservative_gate_passes 60000 0 [] 0 0 "RANGING" "LOW" "LONDON" 100
    (by norm_num) (by norm_num) (by norm_num)

/-! ## Claim C9: the regime is global, not per-asset -/

/-- C9.  When both assets have at least 5 samples, the stored regime after
`detectMarketCondition` equals the classification of eth's window alone:
btc's classification is computed in the same pass and then overwritten,
and a position opened on btc snapshots eth's regime into its
`marketCondition` field. -/
theorem c9_regime_is_global
    (btcHist ethHist : List PriceSample) (bp ep : ℚ) (prev : Regime)
    (price : ℚ) (conf : ℤ) (mom : ℚ) (cfg : RiskConfig) (sess : String) (now : ℕ)
    (hb : 5 ≤ btcHist.length) (he : 5 ≤ ethHist.length) :
    detectMarketCondition btcHist ethHist bp ep prev = classifyWindow ethHist ep ∧
    classifyStep btcHist bp prev = classifyWindow btcHist bp ∧
    (generateAISetup price conf mom cfg
        (detectMarketCondition btcHist ethHist bp ep prev).condition
        (detectMarketCondition btcHist ethHist bp ep prev).volatility sess now).marketCondition
      = (classifyWindow ethHist ep).condition := by
  have h1 : detectMarketCondition btcHist ethHist bp ep prev = classifyWindow ethHist ep := by
    unfold detectMarketCondition classifyStep
    rw [if_pos he]
  refine ⟨h1, by unfold classifyStep; rw [if_pos hb], ?_⟩
  rw [h1]
  rfl

/-- A btc window trending up with extreme volatility. -/
def c9BtcHist : List PriceSample :=
  [⟨100, 3, 0⟩, ⟨102, 3, 1⟩, ⟨104, 3, 2⟩, ⟨106, 3, 3⟩, ⟨110, 3, 4⟩]

/-- An eth window that is flat and quiet. -/
def c9EthHist : List PriceSample :=
  [⟨100, 0, 0⟩, ⟨100, 0, 1⟩, ⟨100, 0, 2⟩, ⟨100, 0, 3⟩, ⟨100, 0, 4⟩]

/-- C9 witness: with a trending btc window and a flat eth window, the
stored regime and the btc position's snapshot both come from eth's
window. -/
theorem c9_regime_is_global_witness :
    detectMarketCondition c9BtcHist c9EthHist 110 100 ⟨"RANGING", "NORMAL"⟩
      = classifyWindow c9EthHist 100 ∧
    classifyStep c9BtcHist 110 ⟨"RANGING", "NORMAL"⟩ = classifyWindow c9BtcHist 110 ∧
    (generateAISetup 110 10 1 conservative
        (detectMarketCondition c9BtcHist c9EthHist 110 100 ⟨"RANGING", "NORMAL"⟩).condition
        (detectMarketCondition c9BtcHist c9EthHist 110 100 ⟨"RANGING", "NORMAL"⟩).volatility
        "LONDON" 5).marketCondition
      = (classifyWindow c9EthHist 100).condition :=
  c9_regime_is_global c9BtcHist c9EthHist 110 100 ⟨"RANGING", "NORMAL"⟩ 110 10 1
    conservative "LONDON" 5 (by norm_num [c9BtcHist]) (by norm_num [c9EthHist])

/-! ## Claim C10: the proximity check blocks a distinct second position -/

/-- C10.  If a stored TradeRecord for the same asset has the same terminal
outcome and an entry price within 0.5 of a second, distinct position's
entry price, then recording the second close is a no-op: nothing is
appended and the second setup's `recorded` flag stays false. -/
theorem c10_proximity_blocks_second
    (db : DB) (asset : String) (s₂ : Setup) (u : String) (p : ℚ)
    (mc vl sess : String) (now : ℕ) (t : Trade)
    (hmem : t ∈ db.trades) (hasset : t.asset = asset) (hout : t.outcome = some u)
    (hu : isRecordable (some u) = true) (hrec : s₂.recorded = false)
    (hprox : |t.setup.entryPrice - s₂.entryPrice| < 1/2) :
    recordTradeOutcome db asset s₂ (some u) p mc vl sess now = (db, s₂) ∧
    (recordTradeOutcome db asset s₂ (some u) p mc vl sess now).2.recorded = false := by
  have hdup : isDuplicate db.trades asset s₂ u = true := by
    unfold isDuplicate
    rw [List.any_eq_true]
    refine ⟨t, hmem, ?_⟩
    simp [hasset, hout, isRecordable_ne_empty u hu]
    rw [tradeEntryPrice_eq, setupEntryOr0_eq]
    linarith
  have hnoop : recordTradeOutcome db asset s₂ (some u) p mc vl sess now = (db, s₂) := by
    by_cases hr2 : s₂.recorded = true <;> simp [recordTradeOutcome, hu, hdup, hr2]
  exact ⟨hnoop, by rw [hnoop]; exact hrec⟩

/-- An already-recorded WIN on btc at entry 100. -/
def c10Trade : Trade :=
  { asset := "btc",
    setup :=
      { direction := .BULLISH, entry := ⟨1999/20, 2001/20⟩, stop := 199/2,
        originalStop := none, t1 := 403/4, t2 := 405/4, entryPrice := 100,
        confidence := 10, timestamp := 2, status := "ACTIVE",
        reachedTarget1 := true, reachedTarget2 := false, recorded := true,
        marketCondition := "RANGING", volatilityLevel := "NORMAL",
        sessionActive := "LONDON" },
    outcome := some "WIN", profit := 25, timestamp := 2,
    marketCondition := "RANGING", volatilityLevel := "NORMAL",
    sessionActive := "LONDON", closedBy := none, exitPrice := none, exitTime := none }

/-- A second, distinct btc position that closed WIN at entry 100.2. -/
def c10Setup2 : Setup :=
  { direction := .BULLISH, entry := ⟨100, 101⟩, stop := 100,
    originalStop := none, t1 := 101, t2 := 102, entryPrice := 501/5,
    confidence := 12, timestamp := 9, status := "ACTIVE",
    reachedTarget1 := true, reachedTarget2 := false, recorded := false,
    marketCondition := "RANGING", volatilityLevel := "NORMAL", sessionActive := "LONDON" }

/-- C10 witness: the second position's WIN close is a no-op against a
database already holding `c10Trade`. -/
theorem c10_proximity_blocks_second_witness :
    recordTradeOutcome ⟨[c10Trade], initialPerformance⟩ "btc" c10Setup2 (some "WIN") 0
        "RANGING" "NORMAL" "LONDON" 9 = (⟨[c10Trade], initialPerformance⟩, c10Setup2) ∧
    (recordTradeOutcome ⟨[c10Trade], initialPerformance⟩ "btc" c10Setup2 (some "WIN") 0
        "RANGING" "NORMAL" "LONDON" 9).2.recorded = false :=
  c10_proximity_blocks_second ⟨[c10Trade], initialPerformance⟩ "btc" c10Setup2 "WIN" 0
    "RANGING" "NORMAL" "LONDON" 9 c10Trade (by simp) rfl rfl (by decide) rfl
    (by norm_num [c10Trade, c10Setup2, abs_lt])

end Nexus
